import Mathlib

/-!
Shallow embedding of the Pomodoro timer engine
(`src/frontend/src-tauri/src/timer.rs`).

All `u32` fields of the Rust source are modelled as `Nat`.  Arithmetic that
the source performs on `u32` values is modelled faithfully to the compiled
(release-profile) semantics of Rust: `saturating_sub` becomes truncated `Nat`
subtraction, and `+ 1` / `* 60` become addition and multiplication reduced
modulo `2 ^ 32` (written with the constant `u32Mod`), since `u32` addition
and multiplication wrap around.  Well-formed `u32` states are captured by the
boundedness predicates below.
-/

namespace PomodoroApp

/-- The modulus `2 ^ 32` of Rust `u32` arithmetic. -/
def u32Mod : Nat := 4294967296

/-- Enum `PomodoroMode` from timer.rs: Work, ShortBreak, LongBreak. -/
inductive PomodoroMode where
  | work
  | shortBreak
  | longBreak
deriving DecidableEq, Repr

/-- Enum `FocusSound` from timer.rs: Off, White, Rain, Brown. -/
inductive FocusSound where
  | off
  | white
  | rain
  | brown
deriving DecidableEq, Repr

/-- Struct `PomodoroSettings` from timer.rs. -/
structure PomodoroSettings where
  work_minutes : Nat
  short_break_minutes : Nat
  long_break_minutes : Nat
  sessions_before_long_break : Nat
  auto_long_break : Bool
  pause_music_on_break : Bool
deriving DecidableEq, Repr

/-- Struct `PomodoroState` from timer.rs. -/
structure PomodoroState where
  mode : PomodoroMode
  running : Bool
  remaining_seconds : Nat
  total_seconds : Nat
  awaiting_next_session : Bool
  auto_start_remaining : Nat
  cycle_work_sessions : Nat
  total_work_sessions : Nat
  total_sessions_completed : Nat
  settings : PomodoroSettings
deriving DecidableEq, Repr

/-- Struct `CountdownState` from timer.rs. -/
structure CountdownState where
  duration_minutes : Nat
  remaining_seconds : Nat
  running : Bool
deriving DecidableEq, Repr

/-- Struct `TimerState` from timer.rs: the composite state behind the engine's
mutual-exclusion lock. -/
structure TimerState where
  pomodoro : PomodoroState
  countdown : CountdownState
  focus_sound : FocusSound
deriving DecidableEq, Repr

/-- Constant `AUTO_START_DELAY_SECONDS` from timer.rs (line 105). -/
def AUTO_START_DELAY_SECONDS : Nat := 5

/-- Function `TimerEngine::duration_for_mode` (timer.rs lines 254-260). -/
def duration_for_mode (mode : PomodoroMode) (settings : PomodoroSettings) : Nat :=
  match mode with
  | .work => settings.work_minutes
  | .shortBreak => settings.short_break_minutes
  | .longBreak => settings.long_break_minutes

/-- The default settings built in `TimerEngine::new` (timer.rs lines 109-116). -/
def defaultSettings : PomodoroSettings :=
  { work_minutes := 25
    short_break_minutes := 5
    long_break_minutes := 15
    sessions_before_long_break := 4
    auto_long_break := true
    pause_music_on_break := false }

/-- The initial engine state built in `TimerEngine::new` (timer.rs lines 108-142). -/
def initialState : TimerState :=
  { pomodoro :=
      { mode := .work
        running := false
        remaining_seconds := (defaultSettings.work_minutes * 60) % u32Mod
        total_seconds := (defaultSettings.work_minutes * 60) % u32Mod
        awaiting_next_session := false
        auto_start_remaining := 0
        cycle_work_sessions := 0
        total_work_sessions := 0
        total_sessions_completed := 0
        settings := defaultSettings }
    countdown :=
      { duration_minutes := 25
        remaining_seconds := (25 * 60) % u32Mod
        running := false }
    focus_sound := .off }

/-- The Pomodoro half of `TimerEngine::tick` (timer.rs lines 189-232).
Returns the new Pomodoro state together with the recorded
`completed_session` value (the mode of a session that just completed,
if any), which the source then hands to the notifier outside the lock. -/
def tickPomodoro (p : PomodoroState) : PomodoroState × Option PomodoroMode :=
  if p.running then
    let p1 :=
      if p.remaining_seconds > 0 then
        { p with remaining_seconds := p.remaining_seconds - 1 }
      else p
    if p1.remaining_seconds = 0 then
      let completed := p1.mode
      let p2 := { p1 with
        running := false
        awaiting_next_session := true
        auto_start_remaining := AUTO_START_DELAY_SECONDS
        total_sessions_completed := (p1.total_sessions_completed + 1) % u32Mod }
      let p3 :=
        match p2.mode with
        | .work =>
            let p2a := { p2 with
              total_work_sessions := (p2.total_work_sessions + 1) % u32Mod
              cycle_work_sessions := (p2.cycle_work_sessions + 1) % u32Mod }
            let should_long_break :=
              p2a.settings.auto_long_break &&
                decide (p2a.cycle_work_sessions ≥ p2a.settings.sessions_before_long_break)
            { p2a with mode := if should_long_break then .longBreak else .shortBreak }
        | .shortBreak => { p2 with mode := .work }
        | .longBreak => { p2 with mode := .work, cycle_work_sessions := 0 }
      let total := (duration_for_mode p3.mode p3.settings * 60) % u32Mod
      ({ p3 with total_seconds := total, remaining_seconds := total }, some completed)
    else
      (p1, none)
  else if p.awaiting_next_session then
    let p1 :=
      if p.auto_start_remaining > 0 then
        { p with auto_start_remaining := p.auto_start_remaining - 1 }
      else p
    if p1.auto_start_remaining = 0 then
      ({ p1 with awaiting_next_session := false, running := true }, none)
    else
      (p1, none)
  else
    (p, none)

/-- The countdown half of `TimerEngine::tick` (timer.rs lines 234-240). -/
def tickCountdown (c : CountdownState) : CountdownState :=
  if c.running then
    let c1 := { c with remaining_seconds := c.remaining_seconds - 1 }
    if c1.remaining_seconds = 0 then { c1 with running := false } else c1
  else c

/-- The state mutation of `TimerEngine::tick` (timer.rs lines 184-252). -/
def tick (s : TimerState) : TimerState :=
  { s with
    pomodoro := (tickPomodoro s.pomodoro).1
    countdown := tickCountdown s.countdown }

/-- Command `TimerEngine::update_settings` (timer.rs lines 262-273), state mutation. -/
def update_settings (settings : PomodoroSettings) (s : TimerState) : TimerState :=
  let total := (duration_for_mode s.pomodoro.mode settings * 60) % u32Mod
  let p1 := { s.pomodoro with settings := settings, total_seconds := total }
  let p2 :=
    if !p1.running && !p1.awaiting_next_session then
      { p1 with remaining_seconds := total }
    else if p1.remaining_seconds > total then
      { p1 with remaining_seconds := total }
    else p1
  { s with pomodoro := p2 }

/-- Command `TimerEngine::start_pomodoro` (timer.rs lines 275-288), state mutation. -/
def start_pomodoro (s : TimerState) : TimerState :=
  let p1 := { s.pomodoro with mode := PomodoroMode.work }
  let total := (duration_for_mode p1.mode p1.settings * 60) % u32Mod
  let p2 := { p1 with total_seconds := total }
  let p3 :=
    if p2.remaining_seconds = 0 then { p2 with remaining_seconds := total } else p2
  { s with pomodoro :=
      { p3 with awaiting_next_session := false, auto_start_remaining := 0, running := true } }

/-- Command `TimerEngine::start_break` (timer.rs lines 290-301), state mutation. -/
def start_break (s : TimerState) : TimerState :=
  let p1 := { s.pomodoro with mode := PomodoroMode.shortBreak }
  let total := (duration_for_mode p1.mode p1.settings * 60) % u32Mod
  { s with pomodoro :=
      { p1 with
        total_seconds := total
        remaining_seconds := total
        awaiting_next_session := false
        auto_start_remaining := 0
        running := true } }

/-- Command `TimerEngine::skip_break` (timer.rs lines 303-314), state mutation. -/
def skip_break (s : TimerState) : TimerState :=
  let p1 := { s.pomodoro with mode := PomodoroMode.work }
  let total := (duration_for_mode p1.mode p1.settings * 60) % u32Mod
  { s with pomodoro :=
      { p1 with
        total_seconds := total
        remaining_seconds := total
        awaiting_next_session := false
        auto_start_remaining := 0
        running := true } }

/-- Command `TimerEngine::pause_pomodoro` (timer.rs lines 316-322), state mutation. -/
def pause_pomodoro (s : TimerState) : TimerState :=
  { s with pomodoro :=
      { s.pomodoro with
        running := false
        awaiting_next_session := false
        auto_start_remaining := 0 } }

/-- Command `TimerEngine::reset_pomodoro` (timer.rs lines 324-334), state mutation. -/
def reset_pomodoro (s : TimerState) : TimerState :=
  let total := (duration_for_mode s.pomodoro.mode s.pomodoro.settings * 60) % u32Mod
  { s with pomodoro :=
      { s.pomodoro with
        running := false
        awaiting_next_session := false
        auto_start_remaining := 0
        total_seconds := total
        remaining_seconds := total } }

/-- Command `TimerEngine::start_countdown` (timer.rs lines 336-344), state mutation. -/
def start_countdown (s : TimerState) : TimerState :=
  let c1 :=
    if s.countdown.remaining_seconds = 0 then
      { s.countdown with
        remaining_seconds := (s.countdown.duration_minutes * 60) % u32Mod }
    else s.countdown
  { s with countdown := { c1 with running := true } }

/-- Command `TimerEngine::pause_countdown` (timer.rs lines 346-350), state mutation. -/
def pause_countdown (s : TimerState) : TimerState :=
  { s with countdown := { s.countdown with running := false } }

/-- Command `TimerEngine::reset_countdown` (timer.rs lines 352-358), state mutation. -/
def reset_countdown (s : TimerState) : TimerState :=
  { s with countdown :=
      { s.countdown with
        running := false
        remaining_seconds := (s.countdown.duration_minutes * 60) % u32Mod } }

/-- Command `TimerEngine::set_countdown_duration` (timer.rs lines 360-367), state mutation. -/
def set_countdown_duration (minutes : Nat) (s : TimerState) : TimerState :=
  { s with countdown :=
      { duration_minutes := minutes
        remaining_seconds := (minutes * 60) % u32Mod
        running := false } }

/-- Command `TimerEngine::set_focus_sound` (timer.rs lines 369-373), state mutation. -/
def set_focus_sound (sound : FocusSound) (s : TimerState) : TimerState :=
  { s with focus_sound := sound }

/-- The full command surface of the engine (the `#[tauri::command]` wrappers of
timer.rs lines 381-437 each forward to exactly one of these mutations). -/
inductive Command where
  | updateSettings (settings : PomodoroSettings)
  | startPomodoro
  | startBreak
  | skipBreak
  | pausePomodoro
  | resetPomodoro
  | startCountdown
  | pauseCountdown
  | resetCountdown
  | setCountdownDuration (minutes : Nat)
  | setFocusSound (sound : FocusSound)
deriving DecidableEq, Repr

/-- Dispatch a command to the corresponding state mutation. -/
def applyCommand : Command → TimerState → TimerState
  | .updateSettings settings => update_settings settings
  | .startPomodoro => start_pomodoro
  | .startBreak => start_break
  | .skipBreak => skip_break
  | .pausePomodoro => pause_pomodoro
  | .resetPomodoro => reset_pomodoro
  | .startCountdown => start_countdown
  | .pauseCountdown => pause_countdown
  | .resetCountdown => reset_countdown
  | .setCountdownDuration minutes => set_countdown_duration minutes
  | .setFocusSound sound => set_focus_sound sound

/-- A settings value lies in the `u32` domain. -/
def SettingsBounded (settings : PomodoroSettings) : Prop :=
  settings.work_minutes < u32Mod ∧
  settings.short_break_minutes < u32Mod ∧
  settings.long_break_minutes < u32Mod ∧
  settings.sessions_before_long_break < u32Mod

instance : DecidablePred SettingsBounded := fun _ => by
  unfold SettingsBounded; infer_instance

/-- Every numeric field of the engine state lies in the `u32` domain. -/
def StateBounded (s : TimerState) : Prop :=
  s.pomodoro.remaining_seconds < u32Mod ∧
  s.pomodoro.total_seconds < u32Mod ∧
  s.pomodoro.auto_start_remaining < u32Mod ∧
  s.pomodoro.cycle_work_sessions < u32Mod ∧
  s.pomodoro.total_work_sessions < u32Mod ∧
  s.pomodoro.total_sessions_completed < u32Mod ∧
  SettingsBounded s.pomodoro.settings ∧
  s.countdown.duration_minutes < u32Mod ∧
  s.countdown.remaining_seconds < u32Mod

instance : DecidablePred StateBounded := fun _ => by
  unfold StateBounded; infer_instance

/-- A command payload lies in the `u32` domain. -/
def CommandBounded : Command → Prop
  | .updateSettings settings => SettingsBounded settings
  | .setCountdownDuration minutes => minutes < u32Mod
  | _ => True

instance : DecidablePred CommandBounded := fun c => by
  cases c <;> (unfold CommandBounded; infer_instance)

/-- A concrete Pomodoro state used to instantiate theorems: running a Work
session with one second left under the default settings, three work
sessions already completed in the current cycle. -/
def sampleRunningWork : PomodoroState :=
  { mode := .work
    running := true
    remaining_seconds := 1
    total_seconds := 1500
    awaiting_next_session := false
    auto_start_remaining := 0
    cycle_work_sessions := 3
    total_work_sessions := 3
    total_sessions_completed := 6
    settings := defaultSettings }

/-- The externally visible synchronization events of one engine operation:
acquiring and releasing the state mutex, dispatching a session-completion
notification, and emitting a snapshot to the presentation sinks. -/
inductive EngineEvent where
  | lockAcquire
  | lockRelease
  | notifyDispatch
  | snapshotEmit
deriving DecidableEq, Repr

/-- Event order of `TimerEngine::tick` (timer.rs lines 184-252): the
MutexGuard lives only in the inner block of lines 186-241 and is dropped at
the closing brace on line 241; the notification call (line 248) and the
`emit_snapshot` call (line 251) run after that. -/
def tickEvents : List EngineEvent :=
  [.lockAcquire, .lockRelease, .notifyDispatch, .snapshotEmit]

/-- Event order of `TimerEngine::update_settings` (timer.rs lines 262-273;
every other command body has the same shape): the MutexGuard bound at line
263 lives to the closing brace of the function on line 273, so the
`emit_snapshot` call at line 272 — which itself re-locks the mutex through
`snapshot` (line 152) — executes while the lock is still held. -/
def updateSettingsEvents : List EngineEvent :=
  [.lockAcquire, .snapshotEmit, .lockRelease]

/-- Whether an operation's event trace releases the engine lock before its
snapshot emission (true when no emission occurs at all). -/
def releasesBeforeEmit : List EngineEvent → Bool
  | [] => true
  | .snapshotEmit :: _ => false
  | .lockRelease :: _ => true
  | _ :: rest => releasesBeforeEmit rest

/-- The Pomodoro half of a tick as a state-to-state function (first component
of `tickPomodoro`); `(tick s).pomodoro = pStep s.pomodoro` by definition. -/
def pStep (p : PomodoroState) : PomodoroState := (tickPomodoro p).1

/-- The spec's first PomodoroState invariant:
`remaining_seconds ≤ total_seconds`. -/
def RemainingInv (s : TimerState) : Prop :=
  s.pomodoro.remaining_seconds ≤ s.pomodoro.total_seconds

instance : DecidablePred RemainingInv := fun _ => by
  unfold RemainingInv; infer_instance

/-- The spec's flag invariant: `running` and `awaiting_next_session` are never
both true, and `auto_start_remaining` is nonzero only while
`awaiting_next_session` is true. -/
def FlagInv (s : TimerState) : Prop :=
  (¬ (s.pomodoro.running = true ∧ s.pomodoro.awaiting_next_session = true)) ∧
  (s.pomodoro.auto_start_remaining ≠ 0 → s.pomodoro.awaiting_next_session = true)

instance : DecidablePred FlagInv := fun _ => by
  unfold FlagInv; infer_instance

/-- A concrete engine state satisfying `remaining ≤ total`: an engine sitting
at the start of a 15-minute LongBreak, under settings with a 5-minute Work
duration.  (Reachable: update the settings while idle, run one full Work
session with long-break threshold 1, let the completing tick move the engine
to LongBreak with 900 seconds loaded, then pause.) -/
def cex5 : TimerState :=
  { pomodoro :=
      { mode := .longBreak
        running := false
        remaining_seconds := 900
        total_seconds := 900
        awaiting_next_session := false
        auto_start_remaining := 0
        cycle_work_sessions := 1
        total_work_sessions := 1
        total_sessions_completed := 1
        settings :=
          { work_minutes := 5
            short_break_minutes := 5
            long_break_minutes := 15
            sessions_before_long_break := 1
            auto_long_break := true
            pause_music_on_break := false } }
    countdown := { duration_minutes := 25, remaining_seconds := 1500, running := false }
    focus_sound := .off }

/-- A concrete engine state one second away from a Work completion whose
lifetime session counter sits at `u32::MAX = 4294967295`. -/
def cex10 : TimerState :=
  { pomodoro :=
      { mode := .work
        running := true
        remaining_seconds := 1
        total_seconds := 1500
        awaiting_next_session := false
        auto_start_remaining := 0
        cycle_work_sessions := 0
        total_work_sessions := 0
        total_sessions_completed := 4294967295
        settings := defaultSettings }
    countdown := { duration_minutes := 25, remaining_seconds := 1500, running := false }
    focus_sound := .off }

/-- A concrete engine state immediately after a Pomodoro completion: the
completing tick has stopped the run, armed the 5-second auto-start delay,
and loaded the new (ShortBreak) session in full. -/
def sampleAwaiting : TimerState :=
  { pomodoro :=
      { mode := .shortBreak
        running := false
        remaining_seconds := 300
        total_seconds := 300
        awaiting_next_session := true
        auto_start_remaining := 5
        cycle_work_sessions := 1
        total_work_sessions := 1
        total_sessions_completed := 1
        settings := defaultSettings }
    countdown := { duration_minutes := 25, remaining_seconds := 1500, running := false }
    focus_sound := .off }

/-- C1: the claim that every tick and every command releases the engine lock
before snapshot fan-out is refuted by the command bodies: `tick` does drop
the guard before emitting, but `update_settings` (like every other command)
still holds the MutexGuard when it calls `emit_snapshot`, so the emission —
which re-acquires the same non-reentrant mutex — happens under the lock. -/
theorem c1_command_emits_under_lock :
    releasesBeforeEmit tickEvents = true ∧
    releasesBeforeEmit updateSettingsEvents = false := by
  decide

/-- C9: for every starting state, resetCountdown; pauseCountdown;
resetCountdown yields exactly the state of the first resetCountdown alone,
with running cleared, remaining reloaded to `duration_minutes * 60` (u32),
and the duration unchanged. -/
theorem c9_countdown_reset_idempotent (s : TimerState) :
    reset_countdown (pause_countdown (reset_countdown s)) = reset_countdown s ∧
    (reset_countdown s).countdown.running = false ∧
    (reset_countdown s).countdown.remaining_seconds =
      (s.countdown.duration_minutes * 60) % u32Mod ∧
    (reset_countdown s).countdown.duration_minutes = s.countdown.duration_minutes := by
  refine ⟨?_, rfl, rfl, rfl⟩
  simp [reset_countdown, pause_countdown]

/-- C4: `update_settings` replaces the settings wholesale, recomputes
`total_seconds` from the (unchanged) current mode and the new settings, and
sets `remaining_seconds` to the new total when idle, clamps it down to the
new total when running or awaiting with a larger remaining, and otherwise
leaves it unchanged (never increased). -/
theorem c4_update_settings (settings : PomodoroSettings) (s : TimerState) :
    (update_settings settings s).pomodoro.settings = settings ∧
    (update_settings settings s).pomodoro.mode = s.pomodoro.mode ∧
    (update_settings settings s).pomodoro.total_seconds =
      (duration_for_mode s.pomodoro.mode settings * 60) % u32Mod ∧
    (update_settings settings s).pomodoro.remaining_seconds =
      (if s.pomodoro.running = false ∧ s.pomodoro.awaiting_next_session = false then
        (duration_for_mode s.pomodoro.mode settings * 60) % u32Mod
      else if s.pomodoro.remaining_seconds >
          (duration_for_mode s.pomodoro.mode settings * 60) % u32Mod then
        (duration_for_mode s.pomodoro.mode settings * 60) % u32Mod
      else s.pomodoro.remaining_seconds) := by
  cases hr : s.pomodoro.running <;>
    cases ha : s.pomodoro.awaiting_next_session <;>
      simp [update_settings, hr, ha] <;>
        split_ifs <;> simp_all

/-- C2: whenever the Pomodoro is running and its remaining time reaches 0
during a tick (it was already 0 or is decremented to 0), that single tick
stops it, marks the next session as awaited with a 5-second auto-start
delay, increments the lifetime session counter by one (a `u32` increment),
advances the mode per the transition rule, and re-derives both
`total_seconds` and `remaining_seconds` as the new mode's duration in
minutes times 60. -/
theorem c2_completion_effects (p : PomodoroState)
    (hrun : p.running = true) (hrem : p.remaining_seconds ≤ 1) :
    (tickPomodoro p).1.running = false ∧
    (tickPomodoro p).1.awaiting_next_session = true ∧
    (tickPomodoro p).1.auto_start_remaining = 5 ∧
    (tickPomodoro p).1.total_sessions_completed =
      (p.total_sessions_completed + 1) % u32Mod ∧
    (p.total_sessions_completed + 1 < u32Mod →
      (tickPomodoro p).1.total_sessions_completed = p.total_sessions_completed + 1) ∧
    (tickPomodoro p).1.mode =
      (match p.mode with
       | .work =>
          if p.settings.auto_long_break = true ∧
              (p.cycle_work_sessions + 1) % u32Mod ≥ p.settings.sessions_before_long_break
          then PomodoroMode.longBreak else PomodoroMode.shortBreak
       | .shortBreak => PomodoroMode.work
       | .longBreak => PomodoroMode.work) ∧
    (tickPomodoro p).1.total_seconds =
      (duration_for_mode (tickPomodoro p).1.mode p.settings * 60) % u32Mod ∧
    (tickPomodoro p).1.remaining_seconds = (tickPomodoro p).1.total_seconds := by
  have hmod : p.total_sessions_completed + 1 < u32Mod →
      (p.total_sessions_completed + 1) % u32Mod = p.total_sessions_completed + 1 :=
    fun h => Nat.mod_eq_of_lt h
  have hrem0 : p.remaining_seconds = 0 ∨ p.remaining_seconds = 1 := by omega
  rcases hrem0 with h0 | h0 <;>
    cases hm : p.mode <;>
      simp_all [tickPomodoro, AUTO_START_DELAY_SECONDS, duration_for_mode,
        Bool.and_eq_true, decide_eq_true_eq]

/-- C2 witness: the completion effects at a concrete running Work state with
one second left. -/
theorem c2_completion_effects_witness :
    (tickPomodoro sampleRunningWork).1.running = false ∧
    (tickPomodoro sampleRunningWork).1.awaiting_next_session = true ∧
    (tickPomodoro sampleRunningWork).1.auto_start_remaining = 5 :=
  let h := c2_completion_effects sampleRunningWork rfl (by decide)
  ⟨h.1, h.2.1, h.2.2.1⟩

/-- C3: the mode-transition rule applied by a completing tick: a completed
Work session increments `cycle_work_sessions` and `total_work_sessions`
(u32 increments) and moves to LongBreak exactly when `auto_long_break` holds
and the post-increment cycle count reaches `sessions_before_long_break`,
otherwise to ShortBreak; a completed ShortBreak moves to Work leaving both
work counters unchanged; a completed LongBreak moves to Work and resets
`cycle_work_sessions` to 0 (leaving `total_work_sessions` unchanged). -/
theorem c3_mode_transition (p : PomodoroState)
    (hrun : p.running = true) (hrem : p.remaining_seconds ≤ 1) :
    (p.mode = .work →
      (tickPomodoro p).1.cycle_work_sessions = (p.cycle_work_sessions + 1) % u32Mod ∧
      (tickPomodoro p).1.total_work_sessions = (p.total_work_sessions + 1) % u32Mod ∧
      (tickPomodoro p).1.mode =
        (if p.settings.auto_long_break = true ∧
            (p.cycle_work_sessions + 1) % u32Mod ≥ p.settings.sessions_before_long_break
         then PomodoroMode.longBreak else PomodoroMode.shortBreak)) ∧
    (p.mode = .shortBreak →
      (tickPomodoro p).1.mode = .work ∧
      (tickPomodoro p).1.cycle_work_sessions = p.cycle_work_sessions ∧
      (tickPomodoro p).1.total_work_sessions = p.total_work_sessions) ∧
    (p.mode = .longBreak →
      (tickPomodoro p).1.mode = .work ∧
      (tickPomodoro p).1.cycle_work_sessions = 0 ∧
      (tickPomodoro p).1.total_work_sessions = p.total_work_sessions) := by
  have hrem0 : p.remaining_seconds = 0 ∨ p.remaining_seconds = 1 := by omega
  rcases hrem0 with h0 | h0 <;>
    cases hm : p.mode <;>
      simp_all [tickPomodoro, AUTO_START_DELAY_SECONDS,
        Bool.and_eq_true, decide_eq_true_eq]

/-- C3 witness: a fourth completed Work session under the default settings
(three already in the cycle, threshold four, auto long break on) moves the
engine to LongBreak. -/
theorem c3_mode_transition_witness :
    (tickPomodoro sampleRunningWork).1.mode = PomodoroMode.longBreak := by
  have h := ((c3_mode_transition sampleRunningWork rfl (by decide)).1 rfl).2.2
  rw [h]
  decide

/-- Helper: a tick keeps `remaining_seconds ≤ total_seconds` on the Pomodoro
sub-state. -/
theorem pStep_remaining_le (p : PomodoroState)
    (h : p.remaining_seconds ≤ p.total_seconds) :
    (pStep p).remaining_seconds ≤ (pStep p).total_seconds := by
  cases hr : p.running <;> cases ha : p.awaiting_next_session <;>
    cases hm : p.mode <;>
      simp_all [pStep, tickPomodoro] <;> split_ifs <;> simp_all <;> omega

/-- C5 counterexample: `cex5` satisfies `remaining_seconds ≤ total_seconds`,
yet `start_pomodoro` — which forces Work mode and recomputes the total from
the 5-minute Work setting while refilling `remaining_seconds` only when it
is exactly 0 — leaves it with `remaining_seconds = 900 > 300 = total_seconds`. -/
theorem c5_counterexample :
    RemainingInv cex5 ∧ ¬ RemainingInv (start_pomodoro cex5) := by
  decide

/-- C5 (amended): `remaining_seconds ≤ total_seconds` holds in the initial
state and is preserved by every tick and by every command other than
`startPomodoro`; `startPomodoro` preserves it exactly under the extra
proviso that the prior `remaining_seconds` is 0 (so it gets refilled) or
already lies within the freshly computed Work total. -/
theorem c5_remaining_invariant :
    RemainingInv initialState ∧
    (∀ s : TimerState, RemainingInv s → RemainingInv (tick s)) ∧
    (∀ (c : Command) (s : TimerState), RemainingInv s →
      (c = Command.startPomodoro →
        s.pomodoro.remaining_seconds = 0 ∨
        s.pomodoro.remaining_seconds ≤ (s.pomodoro.settings.work_minutes * 60) % u32Mod) →
      RemainingInv (applyCommand c s)) := by
  refine ⟨by decide, ?_, ?_⟩
  · intro s h
    exact pStep_remaining_le s.pomodoro h
  · intro c s h hguard
    cases c with
    | updateSettings settings =>
        simp only [applyCommand, update_settings, RemainingInv] at h ⊢
        split_ifs <;> simp_all <;> omega
    | startPomodoro =>
        rcases hguard rfl with h0 | hle <;>
          simp_all [applyCommand, start_pomodoro, RemainingInv, duration_for_mode] <;>
            split_ifs <;> simp_all
    | startBreak => simp [applyCommand, start_break, RemainingInv]
    | skipBreak => simp [applyCommand, skip_break, RemainingInv]
    | pausePomodoro => simpa [applyCommand, pause_pomodoro, RemainingInv] using h
    | resetPomodoro => simp [applyCommand, reset_pomodoro, RemainingInv]
    | startCountdown => simpa [applyCommand, start_countdown, RemainingInv] using h
    | pauseCountdown => simpa [applyCommand, pause_countdown, RemainingInv] using h
    | resetCountdown => simpa [applyCommand, reset_countdown, RemainingInv] using h
    | setCountdownDuration minutes =>
        simpa [applyCommand, set_countdown_duration, RemainingInv] using h
    | setFocusSound sound => simpa [applyCommand, set_focus_sound, RemainingInv] using h

/-- C5 witness: the amended preservation applied at the initial state. -/
theorem c5_remaining_invariant_witness :
    RemainingInv (applyCommand Command.startPomodoro initialState) :=
  c5_remaining_invariant.2.2 Command.startPomodoro initialState (by decide)
    (fun _ => Or.inr (by decide))

-- Helper: a tick keeps the flag invariant on the Pomodoro sub-state.
set_option maxHeartbeats 2000000 in
theorem pStep_flags (p : PomodoroState)
    (h1 : ¬ (p.running = true ∧ p.awaiting_next_session = true))
    (h2 : p.auto_start_remaining ≠ 0 → p.awaiting_next_session = true) :
    (¬ ((pStep p).running = true ∧ (pStep p).awaiting_next_session = true)) ∧
    ((pStep p).auto_start_remaining ≠ 0 → (pStep p).awaiting_next_session = true) := by
  cases hr : p.running <;> cases ha : p.awaiting_next_session <;>
    cases hm : p.mode <;>
      (simp_all [pStep, tickPomodoro, AUTO_START_DELAY_SECONDS];
       try split_ifs <;> simp_all)

/-- C8: the conjunction "running and awaiting_next_session are never both
true, and auto_start_remaining is nonzero only while awaiting_next_session
is true" holds initially and is preserved by every tick and every command. -/
theorem c8_flag_invariant :
    FlagInv initialState ∧
    (∀ s : TimerState, FlagInv s → FlagInv (tick s)) ∧
    (∀ (c : Command) (s : TimerState), FlagInv s → FlagInv (applyCommand c s)) := by
  refine ⟨by decide, ?_, ?_⟩
  · intro s h
    exact pStep_flags s.pomodoro h.1 h.2
  · intro c s h
    cases c with
    | updateSettings settings =>
        obtain ⟨h1, h2⟩ := h
        simp only [applyCommand, update_settings, FlagInv] at h1 h2 ⊢
        split_ifs <;> exact ⟨h1, h2⟩
    | startPomodoro => simp [applyCommand, start_pomodoro, FlagInv]
    | startBreak => simp [applyCommand, start_break, FlagInv]
    | skipBreak => simp [applyCommand, skip_break, FlagInv]
    | pausePomodoro => simp [applyCommand, pause_pomodoro, FlagInv]
    | resetPomodoro => simp [applyCommand, reset_pomodoro, FlagInv]
    | startCountdown => simpa [applyCommand, start_countdown, FlagInv] using h
    | pauseCountdown => simpa [applyCommand, pause_countdown, FlagInv] using h
    | resetCountdown => simpa [applyCommand, reset_countdown, FlagInv] using h
    | setCountdownDuration minutes =>
        simpa [applyCommand, set_countdown_duration, FlagInv] using h
    | setFocusSound sound => simpa [applyCommand, set_focus_sound, FlagInv] using h

/-- C8 witness: the preservation applied to a tick of the initial state. -/
theorem c8_flag_invariant_witness : FlagInv (tick initialState) :=
  c8_flag_invariant.2.1 initialState (by decide)

-- Helper: five successive ticks on a Pomodoro sub-state that is awaiting its
-- next session with the full 5-second auto-start delay armed: the first four
-- only count the delay down, the fifth clears the awaiting flag and starts
-- the run; no other field is touched.
theorem auto_start_chain (p : PomodoroState)
    (hr : p.running = false) (ha : p.awaiting_next_session = true)
    (h5 : p.auto_start_remaining = 5) :
    pStep p = { p with auto_start_remaining := 4 } ∧
    pStep (pStep p) = { p with auto_start_remaining := 3 } ∧
    pStep (pStep (pStep p)) = { p with auto_start_remaining := 2 } ∧
    pStep (pStep (pStep (pStep p))) = { p with auto_start_remaining := 1 } ∧
    pStep (pStep (pStep (pStep (pStep p)))) =
      { p with auto_start_remaining := 0, awaiting_next_session := false,
               running := true } := by
  obtain ⟨mode, running, rem, total, aw, auto, cyc, tw, ts, st⟩ := p
  subst hr ha h5
  refine ⟨rfl, ?_, ?_, ?_, ?_⟩ <;> rfl

/-- C7: from any state immediately after a Pomodoro completion (not running,
awaiting the next session, auto-start delay at its full 5 seconds, and the
new session loaded in full so that remaining equals total), five ticks with
no intervening command clear `awaiting_next_session` and set `running`, with
`remaining_seconds` still equal to `total_seconds` for the (unchanged) new
mode; after one, two, three, or four ticks the engine is still awaiting and
not running. -/
theorem c7_auto_start (s : TimerState)
    (hr : s.pomodoro.running = false)
    (ha : s.pomodoro.awaiting_next_session = true)
    (h5 : s.pomodoro.auto_start_remaining = 5)
    (hrem : s.pomodoro.remaining_seconds = s.pomodoro.total_seconds) :
    ((tick (tick (tick (tick (tick s))))).pomodoro.running = true ∧
     (tick (tick (tick (tick (tick s))))).pomodoro.awaiting_next_session = false ∧
     (tick (tick (tick (tick (tick s))))).pomodoro.remaining_seconds =
       (tick (tick (tick (tick (tick s))))).pomodoro.total_seconds ∧
     (tick (tick (tick (tick (tick s))))).pomodoro.total_seconds =
       s.pomodoro.total_seconds ∧
     (tick (tick (tick (tick (tick s))))).pomodoro.mode = s.pomodoro.mode) ∧
    ((tick s).pomodoro.awaiting_next_session = true ∧
     (tick s).pomodoro.running = false) ∧
    ((tick (tick s)).pomodoro.awaiting_next_session = true ∧
     (tick (tick s)).pomodoro.running = false) ∧
    ((tick (tick (tick s))).pomodoro.awaiting_next_session = true ∧
     (tick (tick (tick s))).pomodoro.running = false) ∧
    ((tick (tick (tick (tick s)))).pomodoro.awaiting_next_session = true ∧
     (tick (tick (tick (tick s)))).pomodoro.running = false) := by
  obtain ⟨e1, e2, e3, e4, e5⟩ := auto_start_chain s.pomodoro hr ha h5
  have t1 : (tick s).pomodoro = pStep s.pomodoro := rfl
  have t2 : (tick (tick s)).pomodoro = pStep ((tick s).pomodoro) := rfl
  have t3 : (tick (tick (tick s))).pomodoro = pStep ((tick (tick s)).pomodoro) := rfl
  have t4 : (tick (tick (tick (tick s)))).pomodoro =
      pStep ((tick (tick (tick s))).pomodoro) := rfl
  have t5 : (tick (tick (tick (tick (tick s))))).pomodoro =
      pStep ((tick (tick (tick (tick s)))).pomodoro) := rfl
  rw [t1] at t2; rw [t2] at t3; rw [t3] at t4; rw [t4] at t5
  rw [t5, e5, t4, e4, t3, e3, t2, e2, t1, e1]
  simp [hrem, hr, ha]

/-- C7 witness: the auto-start run applied to a concrete post-completion
state. -/
theorem c7_auto_start_witness :
    (tick (tick (tick (tick (tick sampleAwaiting))))).pomodoro.running = true ∧
    (tick sampleAwaiting).pomodoro.awaiting_next_session = true :=
  let h := c7_auto_start sampleAwaiting rfl rfl rfl rfl
  ⟨h.1.1, h.2.1.1⟩

-- Helper: the state mutation of every command is a total function over the
-- whole u32 input domain: for every bounded state and every bounded payload
-- (including a setCountdownDuration minute count as large as u32::MAX, whose
-- total is computed as minutes * 60 in wrapping u32 arithmetic, and
-- arbitrarily large duration fields in updateSettings), it produces a state
-- whose fields all remain in the u32 domain; the only subtraction anywhere
-- in the engine is saturating.
theorem applyCommand_bounded (c : Command) (s : TimerState)
    (hs : StateBounded s) (hc : CommandBounded c) :
    StateBounded (applyCommand c s) := by
  have hpos : 0 < u32Mod := by decide
  have hmod : ∀ n : Nat, n % u32Mod < u32Mod := fun n => Nat.mod_lt n hpos
  obtain ⟨h1, h2, h3, h4, h5, h6, hset, h7, h8⟩ := hs
  cases c with
  | updateSettings settings =>
      simp only [applyCommand, update_settings, StateBounded]
      split_ifs <;>
        first
        | exact ⟨hmod _, hmod _, h3, h4, h5, h6, hc, h7, h8⟩
        | exact ⟨h1, hmod _, h3, h4, h5, h6, hc, h7, h8⟩
  | startPomodoro =>
      simp only [applyCommand, start_pomodoro, StateBounded]
      split_ifs <;>
        first
        | exact ⟨hmod _, hmod _, hpos, h4, h5, h6, hset, h7, h8⟩
        | exact ⟨h1, hmod _, hpos, h4, h5, h6, hset, h7, h8⟩
  | startBreak =>
      exact ⟨hmod _, hmod _, hpos, h4, h5, h6, hset, h7, h8⟩
  | skipBreak =>
      exact ⟨hmod _, hmod _, hpos, h4, h5, h6, hset, h7, h8⟩
  | pausePomodoro =>
      exact ⟨h1, h2, hpos, h4, h5, h6, hset, h7, h8⟩
  | resetPomodoro =>
      exact ⟨hmod _, hmod _, hpos, h4, h5, h6, hset, h7, h8⟩
  | startCountdown =>
      simp only [applyCommand, start_countdown, StateBounded]
      split_ifs <;>
        first
        | exact ⟨h1, h2, h3, h4, h5, h6, hset, h7, hmod _⟩
        | exact ⟨h1, h2, h3, h4, h5, h6, hset, h7, h8⟩
  | pauseCountdown =>
      exact ⟨h1, h2, h3, h4, h5, h6, hset, h7, h8⟩
  | resetCountdown =>
      exact ⟨h1, h2, h3, h4, h5, h6, hset, h7, hmod _⟩
  | setCountdownDuration minutes =>
      exact ⟨h1, h2, h3, h4, h5, h6, hset, hc, hmod _⟩
  | setFocusSound sound =>
      exact ⟨h1, h2, h3, h4, h5, h6, hset, h7, h8⟩

/-- C6: the claim that every command is an unconditional, never-failing
transformation that completes on every input is contradicted by the command
bodies.  Its arithmetic half is true — the state mutation is total on the
`u32` domain, evaluated here at the largest `u32` minute count with its
wrapping `minutes * 60` total — but a command invocation never completes:
its event trace still holds the state lock at the moment of its snapshot
emission, and the emission re-acquires the same non-reentrant mutex, so the
command deadlocks instead of returning. -/
theorem c6_command_mutation_total_but_never_returns :
    StateBounded (applyCommand (Command.setCountdownDuration 4294967295) initialState) ∧
    releasesBeforeEmit updateSettingsEvents = false := by
  decide

-- Helper: a tick that completes no session (its recorded completed-session
-- value is `none`) leaves the three session counters unchanged.
theorem pStep_counters_no_completion (p : PomodoroState)
    (hnone : (tickPomodoro p).2 = none) :
    (pStep p).cycle_work_sessions = p.cycle_work_sessions ∧
    (pStep p).total_work_sessions = p.total_work_sessions ∧
    (pStep p).total_sessions_completed = p.total_sessions_completed := by
  cases hr : p.running with
  | true =>
      by_cases h0 : p.remaining_seconds = 0
      · simp [tickPomodoro, hr, h0] at hnone
      · by_cases h1 : p.remaining_seconds - 1 = 0
        · simp [tickPomodoro, hr, h1, Nat.pos_of_ne_zero h0] at hnone
        · simp [pStep, tickPomodoro, hr, h1, Nat.pos_of_ne_zero h0]
  | false =>
      cases ha : p.awaiting_next_session with
      | true =>
          simp [pStep, tickPomodoro, hr, ha]
          split_ifs <;> simp
      | false => simp [pStep, tickPomodoro, hr, ha]

-- Helper: below `u32::MAX` the lifetime counters never decrease on a tick.
theorem pStep_counters_mono (p : PomodoroState)
    (hw : p.total_work_sessions + 1 < u32Mod)
    (hts : p.total_sessions_completed + 1 < u32Mod) :
    p.total_work_sessions ≤ (pStep p).total_work_sessions ∧
    p.total_sessions_completed ≤ (pStep p).total_sessions_completed := by
  cases hr : p.running with
  | true =>
      by_cases h0 : p.remaining_seconds = 0
      · cases hm : p.mode <;>
          simp [pStep, tickPomodoro, hr, h0, hm, Nat.mod_eq_of_lt hw,
            Nat.mod_eq_of_lt hts, Nat.le_succ]
      · by_cases h1 : p.remaining_seconds - 1 = 0
        · cases hm : p.mode <;>
            simp [pStep, tickPomodoro, hr, h1, Nat.pos_of_ne_zero h0, hm,
              Nat.mod_eq_of_lt hw, Nat.mod_eq_of_lt hts, Nat.le_succ]
        · simp [pStep, tickPomodoro, hr, h1, Nat.pos_of_ne_zero h0]
  | false =>
      cases ha : p.awaiting_next_session with
      | true =>
          simp [pStep, tickPomodoro, hr, ha]
          split_ifs <;> simp
      | false => simp [pStep, tickPomodoro, hr, ha]

/-- C10 counterexample: at `cex10` — one second from a Work completion with
`total_sessions_completed = u32::MAX` — the completing tick wraps the
lifetime counter around to 0, so `total_sessions_completed` is not
monotonically non-decreasing across every operation. -/
theorem c10_counterexample :
    ¬ (cex10.pomodoro.total_sessions_completed ≤
       (tick cex10).pomodoro.total_sessions_completed) := by
  decide

/-- C10 (amended): no command modifies `cycle_work_sessions`,
`total_work_sessions` or `total_sessions_completed`; a tick that completes
no session leaves all three unchanged, so they change only inside `tick()`
on a session completion; and `total_work_sessions` and
`total_sessions_completed` are non-decreasing across every operation
provided they sit below `u32::MAX` (at `u32::MAX` the wrapping `u32`
increment of a completing tick takes the counter back to 0). -/
theorem c10_counter_frame :
    (∀ (c : Command) (s : TimerState),
      (applyCommand c s).pomodoro.cycle_work_sessions =
        s.pomodoro.cycle_work_sessions ∧
      (applyCommand c s).pomodoro.total_work_sessions =
        s.pomodoro.total_work_sessions ∧
      (applyCommand c s).pomodoro.total_sessions_completed =
        s.pomodoro.total_sessions_completed) ∧
    (∀ s : TimerState, (tickPomodoro s.pomodoro).2 = none →
      (tick s).pomodoro.cycle_work_sessions = s.pomodoro.cycle_work_sessions ∧
      (tick s).pomodoro.total_work_sessions = s.pomodoro.total_work_sessions ∧
      (tick s).pomodoro.total_sessions_completed =
        s.pomodoro.total_sessions_completed) ∧
    (∀ s : TimerState,
      s.pomodoro.total_work_sessions + 1 < u32Mod →
      s.pomodoro.total_sessions_completed + 1 < u32Mod →
      s.pomodoro.total_work_sessions ≤ (tick s).pomodoro.total_work_sessions ∧
      s.pomodoro.total_sessions_completed ≤
        (tick s).pomodoro.total_sessions_completed) := by
  refine ⟨?_, ?_, ?_⟩
  · intro c s
    cases c <;>
      simp [applyCommand, update_settings, start_pomodoro, start_break,
        skip_break, pause_pomodoro, reset_pomodoro, start_countdown,
        pause_countdown, reset_countdown, set_countdown_duration,
        set_focus_sound] <;>
      split_ifs <;> simp
  · intro s hnone
    exact pStep_counters_no_completion s.pomodoro hnone
  · intro s hw hts
    exact pStep_counters_mono s.pomodoro hw hts

/-- C10 witness: the frame and monotonicity facts at the initial state. -/
theorem c10_counter_frame_witness :
    initialState.pomodoro.total_sessions_completed ≤
      (tick initialState).pomodoro.total_sessions_completed :=
  (c10_counter_frame.2.2 initialState (by decide) (by decide)).2

end PomodoroApp
